import Mathlib

/-!
Verification of the Degenerus wager settlement engine.

This file shallowly embeds the settlement engine of the repository
(src/game.js, src/storage.js, and the earlier engine revision kept in
src/unnamed/part_000) and proves the specified properties about it.

Modelling conventions:
* JavaScript arithmetic on integral values (the ROI curves, bucket
  arithmetic, basis-point tables) is modelled with `Nat`; `Math.floor`
  of a quotient of naturals is `Nat` division.
* Monetary amounts (balances, stakes, payouts) are modelled with `Rat`.
* Randomness is externalised: the randomly drawn house ticket is an
  explicit parameter of the settlement function.
* The SQLite store is modelled by the row of the player being settled
  plus the append-only list of wager ledger rows; `db.transaction`
  serialises transactions, so one `atomicSpin` call is one atomic step
  on that state.
-/

namespace Degenerus

/-- BUCKET_WEIGHTS from src/game.js line 3 (identical in part_000). -/
def BUCKET_WEIGHTS : List Nat := [10, 10, 10, 10, 9, 9, 9, 8]

/-- TOTAL_WEIGHT from src/game.js line 4. -/
def TOTAL_WEIGHT : Nat := 75

/-- bucketWeight i reads BUCKET_WEIGHTS[i]; out-of-range reads are excluded
by the validity hypotheses of the theorems using it. -/
def bucketWeight (i : Nat) : Nat := BUCKET_WEIGHTS.getD i 0

/-- Loop of weightedBucket (src/game.js lines 48-56): scan the weight list
in index order, accumulating weights, and return the first index whose
cumulative weight exceeds the value; 7 is the defensive fallback after
the loop. -/
def weightedBucketAux (value : Nat) : List Nat → Nat → Nat → Nat
  | [], _, _ => 7
  | w :: ws, cumulative, i =>
    if value < cumulative + w then i else weightedBucketAux value ws (cumulative + w) (i + 1)

/-- weightedBucket from src/game.js lines 48-56: reduce the draw modulo
TOTAL_WEIGHT and bucket it by cumulative weights. -/
def weightedBucket (randomValue : Nat) : Nat :=
  weightedBucketAux (randomValue % TOTAL_WEIGHT) BUCKET_WEIGHTS 0 0

/-- cumWeight n is the cumulative weight of the first n categories. -/
def cumWeight (n : Nat) : Nat := (BUCKET_WEIGHTS.take n).sum

/-- calculateRoi from src/game.js lines 97-116: the 4-segment piecewise
base return curve over scores 0 / 7500 / 25500 / 35500 with anchors
9000 / 9500 / 9950 / 9990 bps; every intermediate rounding is a floor.
The currency argument is present in the source signature and unused. -/
def calculateRoi (activityScore : Nat) (currency : Nat) : Nat :=
  if activityScore ≤ 0 then 9000
  else if activityScore ≤ 7500 then
    9000 + 500 * activityScore * activityScore / 56250000
  else if activityScore ≤ 25500 then
    9500 + 450 * (activityScore - 7500) / 18000
  else if activityScore ≤ 35500 then
    9950 + 40 * (activityScore - 25500) / 10000
  else 9990

/-- calculateWwxrpHighRoi from src/game.js lines 118-123: linear
interpolation from 9000 to 10990 bps across scores 0..35500. -/
def calculateWwxrpHighRoi (activityScore : Nat) : Nat :=
  if activityScore ≤ 0 then 9000
  else if 35500 ≤ activityScore then 10990
  else 9000 + 1990 * activityScore / 35500

/-- bonusBucket from src/game.js lines 125-129 (the source binder is
named matches, a reserved word in Lean, renamed matchCount here). -/
def bonusBucket (matchCount : Nat) (specialMatch : Bool) : Nat :=
  if matchCount < 5 then 0
  else if matchCount = 8 then (if specialMatch then 9 else 8)
  else matchCount

/-- bonusRoiForBucket from src/game.js lines 131-140: scale the bonus
rate by the fixed per-bucket factor over a million, flooring. -/
def bonusRoiForBucket (bucket : Nat) (bonusRoiBps : Nat) : Nat :=
  let factor :=
    if bucket = 5 then 144136
    else if bucket = 6 then 900848
    else if bucket = 7 then 4206141
    else if bucket = 8 then 97914359
    else if bucket = 9 then 344701627
    else 0
  if factor = 0 then 0 else bonusRoiBps * factor / 1000000

/-- Trait: one quadrant of a ticket, a color and a symbol category
(src/game.js; the redundant quadrant index field of the JS objects is
the function argument below). -/
structure Trait where
  color : Nat
  symbol : Nat
deriving DecidableEq

/-- Ticket: four traits indexed by quadrant plus the special marker
(0 = none, 1-3 active) of the extended ruleset. -/
structure Ticket where
  traits : Fin 4 → Trait
  special : Nat
deriving DecidableEq

/-- matchPoints is one iteration of the countMatches loop
(src/game.js lines 84-91): one point if the colors of quadrant q agree
and one point if the symbols agree. -/
def matchPoints (playerTicket resultTicket : Ticket) (q : Fin 4) : Nat :=
  (if (playerTicket.traits q).color = (resultTicket.traits q).color then 1 else 0) +
  (if (playerTicket.traits q).symbol = (resultTicket.traits q).symbol then 1 else 0)

/-- countMatches from src/game.js lines 84-91, the loop over the four
quadrants unrolled. -/
def countMatches (playerTicket resultTicket : Ticket) : Nat :=
  matchPoints playerTicket resultTicket 0 + matchPoints playerTicket resultTicket 1 +
    matchPoints playerTicket resultTicket 2 + matchPoints playerTicket resultTicket 3

/-- specialsMatch from src/game.js lines 93-95. -/
def specialsMatch (playerSpecial resultSpecial : Nat) : Bool :=
  playerSpecial != 0 && playerSpecial == resultSpecial

/-- calculateEvNormalizationW is calculateEvNormalization from
src/game.js lines 142-152 (ticket-only policy B), generalised over the
weight table w so the claim quantifying over weight tables is statable;
the engine's own table is bucketWeight. -/
def evWeightFactor (w : Nat → Nat) (playerTicket : Ticket) (q : Fin 4) : ℚ :=
  ((w (playerTicket.traits q).color : ℚ) / 75) * ((w (playerTicket.traits q).symbol : ℚ) / 75)

/-- totalWeightProduct is the loop of src/game.js lines 146-149, the four
iterations unrolled. -/
def totalWeightProduct (w : Nat → Nat) (playerTicket : Ticket) : ℚ :=
  evWeightFactor w playerTicket 0 * evWeightFactor w playerTicket 1 *
    evWeightFactor w playerTicket 2 * evWeightFactor w playerTicket 3

def calculateEvNormalizationW (w : Nat → Nat) (playerTicket : Ticket) : ℚ :=
  let uniformWeightProduct : ℚ := ((10 : ℚ) / 75) ^ 8
  uniformWeightProduct / totalWeightProduct w playerTicket

/-- calculateEvNormalization from src/game.js lines 142-152 at the
engine's weight table. -/
def calculateEvNormalization (playerTicket : Ticket) : ℚ :=
  calculateEvNormalizationW bucketWeight playerTicket

/-- evQuadrantA is one iteration of the loop of the per-outcome
calculateEvNormalization of src/unnamed/part_000 lines 122-151
(policy A): the numerator and denominator factors contributed by
quadrant q, by whether both, exactly one, or neither attribute matches. -/
def evQuadrantA (w : Nat → Nat) (playerTicket resultTicket : Ticket) (q : Fin 4) : ℚ × ℚ :=
  let wC : ℚ := w (playerTicket.traits q).color
  let wS : ℚ := w (playerTicket.traits q).symbol
  if (playerTicket.traits q).color = (resultTicket.traits q).color ∧
      (playerTicket.traits q).symbol = (resultTicket.traits q).symbol then
    (100, wC * wS)
  else if (playerTicket.traits q).color = (resultTicket.traits q).color ∨
      (playerTicket.traits q).symbol = (resultTicket.traits q).symbol then
    (1300, 75 * (wC + wS) - 2 * (wC * wS))
  else
    (4225, (75 - wC) * (75 - wS))

/-- calculateEvNormalizationAW is the per-outcome calculateEvNormalization
of src/unnamed/part_000 lines 122-151, generalised over the weight table;
the num and den accumulations of the loop are unrolled over the four
quadrants. -/
def calculateEvNormalizationAW (w : Nat → Nat) (playerTicket resultTicket : Ticket) : ℚ :=
  ((evQuadrantA w playerTicket resultTicket 0).1 * (evQuadrantA w playerTicket resultTicket 1).1 *
      (evQuadrantA w playerTicket resultTicket 2).1 *
      (evQuadrantA w playerTicket resultTicket 3).1) /
    ((evQuadrantA w playerTicket resultTicket 0).2 * (evQuadrantA w playerTicket resultTicket 1).2 *
      (evQuadrantA w playerTicket resultTicket 2).2 *
      (evQuadrantA w playerTicket resultTicket 3).2)

/-- calculateEvNormalizationA is policy A at the engine's weight table. -/
def calculateEvNormalizationA (playerTicket resultTicket : Ticket) : ℚ :=
  calculateEvNormalizationAW bucketWeight playerTicket resultTicket

/-- FULL_TICKET_PAYOUTS_BPS from src/game.js lines 5-15. -/
def FULL_TICKET_PAYOUTS_BPS : List Nat := [0, 0, 189, 500, 1778, 6667, 31100, 155600, 355600]

/-- JACKPOT_MULTIPLIER_BPS from src/game.js line 16. -/
def JACKPOT_MULTIPLIER_BPS : Nat := 10000000

/-- SPECIAL_MATCH_MIN_MULTIPLIER_BPS from src/game.js line 17. -/
def SPECIAL_MATCH_MIN_MULTIPLIER_BPS : Nat := 400

/-- CURRENCY_WWXRP from src/game.js line 18. -/
def CURRENCY_WWXRP : Nat := 3

/-- ETH_ROI_BONUS_BPS from src/game.js line 33. -/
def ETH_ROI_BONUS_BPS : Nat := 500

/-- FULL_TICKET_NON_WWXRP_SCALE from src/game.js line 42 (0.871470). -/
def FULL_TICKET_NON_WWXRP_SCALE : ℚ := 871470 / 1000000

/-- fullTicketMultiplier is the payout-multiplier selection of
spinFullTicket, src/game.js lines 205-218: the chosen multiplier in bps
together with the isJackpot flag. -/
def fullTicketMultiplier (matchCount : Nat) (hasSpecialMatch : Bool) : Nat × Bool :=
  if matchCount = 8 ∧ hasSpecialMatch = true then
    (JACKPOT_MULTIPLIER_BPS, true)
  else if hasSpecialMatch = true then
    (max (FULL_TICKET_PAYOUTS_BPS.getD (min (matchCount + 1) 8) 0)
      SPECIAL_MATCH_MIN_MULTIPLIER_BPS, false)
  else
    (FULL_TICKET_PAYOUTS_BPS.getD matchCount 0, false)

/-- Player: the balance and activity-score fields of a players row that
the engine reads and writes (src/storage.js schema). -/
structure Player where
  balance_wwxrp : ℚ
  activity_score_bps : Nat
deriving DecidableEq

/-- SpinResult: the single element of spin.results built by
spinFullTicket (src/game.js lines 259-268); the display-only math
string is omitted. -/
structure SpinResult where
  matchCount : Nat
  specialMatch : Bool
  payoutMultiplierBps : Nat
  payout : ℚ
  playerTicket : Ticket
  resultTicket : Ticket
  isJackpot : Bool
deriving DecidableEq

/-- Spin: the spin summary object built by spinFullTicket
(src/game.js lines 257-278); constant fields (mode, consolationPrize,
lootboxPrize, ticketCount) are omitted. -/
structure Spin where
  result : SpinResult
  totalBet : ℚ
  totalPayout : ℚ
  netResult : ℚ
  hasJackpot : Bool
  currency : Nat
  amountPerTicket : ℚ
deriving DecidableEq

/-- spinFullTicket from src/game.js lines 181-288.  The input ticket's
fields are already numeric in this model, so the Number(...) coercion of
lines 192-199 is the identity; the drawn house ticket is the explicit
resultTicket argument. -/
def spinFullTicket (player : Player) (ticket : Ticket) (amount : ℚ) (currency : Nat)
    (resultTicket : Ticket) : Option (Player × Spin) :=
  if player.balance_wwxrp < amount then none
  else if ticket.special < 1 ∨ 3 < ticket.special then none
  else
    let activityScore := min (player.activity_score_bps + 100) 35500
    let roiBps := calculateRoi activityScore currency
    let highRoi := if currency = CURRENCY_WWXRP then calculateWwxrpHighRoi activityScore else 0
    let matchCount := countMatches ticket resultTicket
    let hasSpecialMatch := specialsMatch ticket.special resultTicket.special
    let pm := fullTicketMultiplier matchCount hasSpecialMatch
    let bucket := bonusBucket matchCount hasSpecialMatch
    let effectiveRoi :=
      if currency = CURRENCY_WWXRP ∧ roiBps < highRoi ∧ bucket ≠ 0 then
        roiBps + bonusRoiForBucket bucket (highRoi - roiBps)
      else if currency = 0 ∧ bucket ≠ 0 then
        roiBps + bonusRoiForBucket bucket ETH_ROI_BONUS_BPS
      else roiBps
    let evNorm := calculateEvNormalization ticket
    let basePayout := amount * (pm.1 : ℚ) * (effectiveRoi : ℚ) / (100 * 10000) * evNorm
    let payout :=
      if currency ≠ CURRENCY_WWXRP then basePayout * FULL_TICKET_NON_WWXRP_SCALE else basePayout
    some
      ( { player with
            balance_wwxrp := player.balance_wwxrp - amount + payout,
            activity_score_bps := activityScore },
        { result :=
            { matchCount := matchCount
              specialMatch := hasSpecialMatch
              payoutMultiplierBps := pm.1
              payout := payout
              playerTicket := ticket
              resultTicket := resultTicket
              isJackpot := pm.2 }
          totalBet := amount
          totalPayout := payout
          netResult := payout - amount
          hasJackpot := pm.2
          currency := currency
          amountPerTicket := amount } )

/-- SpinRow: one row of the spins ledger table (src/storage.js schema
and the INSERT of atomicSpin lines 299-302). -/
structure SpinRow where
  player_id : Nat
  bet_amount : ℚ
  payout : ℚ
  net : ℚ
  matchCount : Nat
  player_ticket : Ticket
  house_ticket : Ticket
deriving DecidableEq

/-- DbState: the part of the store one settlement touches, namely the
players row of the settled address (id and mutable fields) and the
append-only spins ledger. -/
structure DbState where
  player : Option (Nat × Player)
  spins : List SpinRow
deriving DecidableEq

/-- SpinOutcome: the typed results of atomicSpin, src/storage.js lines
272-311: the row lookup failure, the two error strings, and the ok
object carrying the updated player row and the spin. -/
inductive SpinOutcome where
  | playerNotFound : SpinOutcome
  | insufficientBalance : SpinOutcome
  | balanceChanged : SpinOutcome
  | ok : Player → Spin → SpinOutcome
deriving DecidableEq

/-- isOk distinguishes a committed settlement from the failure results. -/
def SpinOutcome.isOk : SpinOutcome → Bool
  | .ok _ _ => true
  | _ => false

/-- atomicSpin from src/storage.js lines 272-311: inside one SQLite
transaction (transactions are serialised, so the call is one atomic step
on the store), read the player row, run spinFn on it, write the new
balance and activity score guarded by balance_wwxrp >= totalBet, and on
success append exactly one spins row built from the last spin result. -/
def atomicSpin (spinFn : Player → Option (Player × Spin)) (st : DbState) :
    SpinOutcome × DbState :=
  match st.player with
  | none => (.playerNotFound, st)
  | some (pid, player) =>
    match spinFn player with
    | none => (.insufficientBalance, st)
    | some (newPlayer, spin) =>
      if spin.totalBet ≤ player.balance_wwxrp then
        let updated : Player :=
          { balance_wwxrp := newPlayer.balance_wwxrp
            activity_score_bps := newPlayer.activity_score_bps }
        let row : SpinRow :=
          { player_id := pid
            bet_amount := spin.totalBet
            payout := spin.totalPayout
            net := spin.netResult
            matchCount := spin.result.matchCount
            player_ticket := spin.result.playerTicket
            house_ticket := spin.result.resultTicket }
        (.ok updated spin, { player := some (pid, updated), spins := st.spins ++ [row] })
      else (.balanceChanged, st)

/-- ticketAllZero: a concrete player ticket, every quadrant category 0,
special 1 (used by concrete evaluations). -/
def ticketAllZero : Ticket := ⟨fun _ => ⟨0, 0⟩, 1⟩

/-- ticketAllOne: a concrete house ticket, every quadrant category 1,
special 0. -/
def ticketAllOne : Ticket := ⟨fun _ => ⟨1, 1⟩, 0⟩

/-- ticketAllSeven: a concrete player ticket picking the weight-8
category 7 everywhere, special 1. -/
def ticketAllSeven : Ticket := ⟨fun _ => ⟨7, 7⟩, 1⟩

/-- spinW: the spin produced by settling ticketAllZero against
ticketAllOne for a stake of 100 in currency 3 (no matches, payout 0). -/
def spinW : Spin :=
  ⟨⟨0, false, 0, 0, ticketAllZero, ticketAllOne, false⟩, 100, 0, -100, false, 3, 100⟩

/-- rowW: the ledger row recorded for spinW on player id 1. -/
def rowW : SpinRow := ⟨1, 100, 0, -100, 0, ticketAllZero, ticketAllOne⟩

/-- stW: the store after committing spinW for a player who started with
balance 100 and activity 0. -/
def stW : DbState := ⟨some (1, ⟨0, 100⟩), [rowW]⟩

/-- st1W: the store after the first of two chained settlements of stake
100 for a player starting at balance 200, activity 0. -/
def st1W : DbState := ⟨some (1, ⟨100, 100⟩), [rowW]⟩

/-- st2W: the store after the second chained settlement. -/
def st2W : DbState := ⟨some (1, ⟨0, 200⟩), [rowW, rowW]⟩

/-! Return curve: bounds and monotonicity (claim C3). -/

lemma roiSeg2_le {s : Nat} (h : s ≤ 7500) : 500 * s * s / 56250000 ≤ 500 := by
  calc 500 * s * s / 56250000 ≤ 500 * 7500 * 7500 / 56250000 :=
        Nat.div_le_div_right (Nat.mul_le_mul (Nat.mul_le_mul_left 500 h) h)
    _ = 500 := by norm_num

lemma roiSeg3_le {s : Nat} (h : s ≤ 25500) : 450 * (s - 7500) / 18000 ≤ 450 := by
  calc 450 * (s - 7500) / 18000 ≤ 450 * 18000 / 18000 :=
        Nat.div_le_div_right (Nat.mul_le_mul_left 450 (by omega))
    _ = 450 := by norm_num

lemma roiSeg4_le {s : Nat} (h : s ≤ 35500) : 40 * (s - 25500) / 10000 ≤ 40 := by
  calc 40 * (s - 25500) / 10000 ≤ 40 * 10000 / 10000 :=
        Nat.div_le_div_right (Nat.mul_le_mul_left 40 (by omega))
    _ = 40 := by norm_num

lemma calculateRoi_eq1 {s : Nat} (c : Nat) (h : s ≤ 0) : calculateRoi s c = 9000 := by
  unfold calculateRoi; rw [if_pos h]

lemma calculateRoi_eq2 {s : Nat} (c : Nat) (h1 : ¬ s ≤ 0) (h2 : s ≤ 7500) :
    calculateRoi s c = 9000 + 500 * s * s / 56250000 := by
  unfold calculateRoi; rw [if_neg h1, if_pos h2]

lemma calculateRoi_eq3 {s : Nat} (c : Nat) (h2 : ¬ s ≤ 7500) (h3 : s ≤ 25500) :
    calculateRoi s c = 9500 + 450 * (s - 7500) / 18000 := by
  unfold calculateRoi; rw [if_neg (by omega : ¬ s ≤ 0), if_neg h2, if_pos h3]

lemma calculateRoi_eq4 {s : Nat} (c : Nat) (h3 : ¬ s ≤ 25500) (h4 : s ≤ 35500) :
    calculateRoi s c = 9950 + 40 * (s - 25500) / 10000 := by
  unfold calculateRoi
  rw [if_neg (by omega : ¬ s ≤ 0), if_neg (by omega : ¬ s ≤ 7500), if_neg h3, if_pos h4]

lemma calculateRoi_eq5 {s : Nat} (c : Nat) (h4 : ¬ s ≤ 35500) : calculateRoi s c = 9990 := by
  unfold calculateRoi
  rw [if_neg (by omega : ¬ s ≤ 0), if_neg (by omega : ¬ s ≤ 7500),
    if_neg (by omega : ¬ s ≤ 25500), if_neg h4]

lemma calculateRoi_lower (s c : Nat) : 9000 ≤ calculateRoi s c := by
  unfold calculateRoi
  split_ifs <;> omega

lemma calculateRoi_le_9500 {s : Nat} (c : Nat) (h : s ≤ 7500) : calculateRoi s c ≤ 9500 := by
  by_cases h0 : s ≤ 0
  · rw [calculateRoi_eq1 c h0]; omega
  · rw [calculateRoi_eq2 c h0 h]
    have := roiSeg2_le (s := s) h
    omega

lemma calculateRoi_le_9950 {s : Nat} (c : Nat) (h : s ≤ 25500) : calculateRoi s c ≤ 9950 := by
  by_cases h2 : s ≤ 7500
  · exact le_trans (calculateRoi_le_9500 c h2) (by omega)
  · rw [calculateRoi_eq3 c h2 h]
    have := roiSeg3_le (s := s) h
    omega

lemma calculateRoi_upper (s c : Nat) : calculateRoi s c ≤ 9990 := by
  by_cases h3 : s ≤ 25500
  · exact le_trans (calculateRoi_le_9950 c h3) (by omega)
  · by_cases h4 : s ≤ 35500
    · rw [calculateRoi_eq4 c h3 h4]
      have := roiSeg4_le (s := s) h4
      omega
    · rw [calculateRoi_eq5 c h4]

lemma calculateRoi_mono (c : Nat) {s t : Nat} (h : s ≤ t) :
    calculateRoi s c ≤ calculateRoi t c := by
  by_cases ht0 : t ≤ 0
  · rw [calculateRoi_eq1 c (by omega : s ≤ 0), calculateRoi_eq1 c ht0]
  · by_cases ht2 : t ≤ 7500
    · by_cases hs0 : s ≤ 0
      · rw [calculateRoi_eq1 c hs0]; exact calculateRoi_lower t c
      · rw [calculateRoi_eq2 c hs0 (by omega), calculateRoi_eq2 c ht0 ht2]
        exact Nat.add_le_add_left
          (Nat.div_le_div_right (Nat.mul_le_mul (Nat.mul_le_mul_left 500 h) h)) 9000
    · by_cases ht3 : t ≤ 25500
      · by_cases hs2 : s ≤ 7500
        · calc calculateRoi s c ≤ 9500 := calculateRoi_le_9500 c hs2
            _ ≤ calculateRoi t c := by
                rw [calculateRoi_eq3 c ht2 ht3]; exact Nat.le_add_right 9500 _
        · rw [calculateRoi_eq3 c hs2 (by omega), calculateRoi_eq3 c ht2 ht3]
          exact Nat.add_le_add_left
            (Nat.div_le_div_right (Nat.mul_le_mul_left 450 (by omega))) 9500
      · by_cases ht4 : t ≤ 35500
        · by_cases hs3 : s ≤ 25500
          · calc calculateRoi s c ≤ 9950 := calculateRoi_le_9950 c hs3
              _ ≤ calculateRoi t c := by
                  rw [calculateRoi_eq4 c ht3 ht4]; exact Nat.le_add_right 9950 _
          · rw [calculateRoi_eq4 c hs3 (by omega), calculateRoi_eq4 c ht3 ht4]
            exact Nat.add_le_add_left
              (Nat.div_le_div_right (Nat.mul_le_mul_left 40 (by omega))) 9950
        · rw [calculateRoi_eq5 c ht4]
          exact calculateRoi_upper s c

/-- Claim C3: for every activity score in the legal domain [0, 35500] and
every currency, the base return rate of the 4-segment piecewise curve
calculateRoi is non-decreasing in the score and lies within
[9000, 9990] basis points. -/
theorem roi_curve_mono_bounded (currency : Nat) (s t : Nat)
    (hs : s ≤ 35500) (ht : t ≤ 35500) (hst : s ≤ t) :
    calculateRoi s currency ≤ calculateRoi t currency ∧
    9000 ≤ calculateRoi s currency ∧ calculateRoi s currency ≤ 9990 :=
  ⟨calculateRoi_mono currency hst, calculateRoi_lower s currency, calculateRoi_upper s currency⟩

/-- Witness for roi_curve_mono_bounded at scores 0 and 35500. -/
theorem roi_curve_mono_bounded_witness :
    calculateRoi 0 3 ≤ calculateRoi 35500 3 ∧
    9000 ≤ calculateRoi 0 3 ∧ calculateRoi 0 3 ≤ 9990 :=
  roi_curve_mono_bounded 3 0 35500 (by norm_num) (by norm_num) (by norm_num)

/-! Weighted bucketing (claim C7). -/

lemma weightedBucketAux_key :
    ∀ v, v < 75 →
      weightedBucketAux v BUCKET_WEIGHTS 0 0 < 8 ∧
      v < cumWeight (weightedBucketAux v BUCKET_WEIGHTS 0 0 + 1) ∧
      (∀ j, j < weightedBucketAux v BUCKET_WEIGHTS 0 0 → cumWeight (j + 1) ≤ v) ∧
      (weightedBucketAux v BUCKET_WEIGHTS 0 0 = 7 ↔ 67 ≤ v) := by decide

/-- Claim C7: for every integer draw, weightedBucket reduces it modulo the
total weight 75 and returns the first category, in index order over the
weights [10,10,10,10,9,9,9,8], whose cumulative weight exceeds the
residue: the result b is below 8, the residue is below cumWeight (b+1),
no earlier category satisfies that, and b = 7 exactly for residues
67 through 74 (the residue being below 75 always). -/
theorem weighted_bucket_spec (randomValue : Nat) :
    weightedBucket randomValue < 8 ∧
    randomValue % TOTAL_WEIGHT < cumWeight (weightedBucket randomValue + 1) ∧
    (∀ j, j < weightedBucket randomValue → cumWeight (j + 1) ≤ randomValue % TOTAL_WEIGHT) ∧
    (weightedBucket randomValue = 7 ↔ 67 ≤ randomValue % TOTAL_WEIGHT) := by
  have hv : randomValue % 75 < 75 := Nat.mod_lt _ (by norm_num)
  have key := weightedBucketAux_key (randomValue % 75) hv
  simpa [weightedBucket, TOTAL_WEIGHT] using key

/-- Witness for weighted_bucket_spec at the draw 200 (residue 50). -/
theorem weighted_bucket_spec_witness :
    weightedBucket 200 < 8 ∧
    200 % TOTAL_WEIGHT < cumWeight (weightedBucket 200 + 1) ∧
    (∀ j, j < weightedBucket 200 → cumWeight (j + 1) ≤ 200 % TOTAL_WEIGHT) ∧
    (weightedBucket 200 = 7 ↔ 67 ≤ 200 % TOTAL_WEIGHT) :=
  weighted_bucket_spec 200

/-! Table lookups evaluated once, for reuse in concrete computations. -/

lemma bucketWeight_zero : bucketWeight 0 = 10 := rfl

lemma bucketWeight_seven : bucketWeight 7 = 8 := rfl

lemma payouts_getD_zero : FULL_TICKET_PAYOUTS_BPS[0]?.getD 0 = 0 := rfl

/-! Match scorer (claim C5). -/

lemma countMatches_eq_card (p r : Ticket) :
    countMatches p r =
      (Finset.univ.filter fun q : Fin 4 => (p.traits q).color = (r.traits q).color).card +
      (Finset.univ.filter fun q : Fin 4 => (p.traits q).symbol = (r.traits q).symbol).card := by
  simp only [countMatches, matchPoints, Finset.card_filter, Fin.sum_univ_four]
  ring

lemma countMatches_le_eight (p r : Ticket) : countMatches p r ≤ 8 := by
  unfold countMatches matchPoints
  split_ifs <;> omega

lemma specialsMatch_iff (ps rs : Nat) : specialsMatch ps rs = true ↔ ps ≠ 0 ∧ ps = rs := by
  unfold specialsMatch
  simp [Bool.and_eq_true, bne_iff_ne, beq_iff_eq]

lemma fullTicketMultiplier_snd (m : Nat) (sp : Bool) :
    (fullTicketMultiplier m sp).2 = true ↔ m = 8 ∧ sp = true := by
  unfold fullTicketMultiplier
  split_ifs with h1 h2 <;> simp_all

/-! Structure of a successful spinFullTicket call. -/

lemma spinFullTicket_eq_some {player : Player} {ticket : Ticket} {amount : ℚ} {currency : Nat}
    {resultTicket : Ticket} {np : Player} {sp : Spin}
    (h : spinFullTicket player ticket amount currency resultTicket = some (np, sp)) :
    ¬ player.balance_wwxrp < amount ∧
    np.balance_wwxrp = player.balance_wwxrp - amount + sp.totalPayout ∧
    np.activity_score_bps = min (player.activity_score_bps + 100) 35500 ∧
    sp.totalBet = amount ∧
    sp.netResult = sp.totalPayout - amount ∧
    sp.result.matchCount = countMatches ticket resultTicket ∧
    sp.result.specialMatch = specialsMatch ticket.special resultTicket.special ∧
    sp.result.playerTicket = ticket ∧
    sp.result.resultTicket = resultTicket ∧
    sp.result.isJackpot =
      (fullTicketMultiplier (countMatches ticket resultTicket)
        (specialsMatch ticket.special resultTicket.special)).2 ∧
    sp.result.payout = sp.totalPayout := by
  unfold spinFullTicket at h
  split_ifs at h with h1 h2 h3 h4
  all_goals try omega
  all_goals
    simp only [Option.some.injEq, Prod.mk.injEq] at h
    obtain ⟨hA, hB⟩ := h
    subst hA
    subst hB
    exact ⟨h1, rfl, rfl, rfl, rfl, rfl, rfl, rfl, rfl, rfl, rfl⟩

/-! Behaviour of one atomicSpin transaction on the store. -/

lemma atomicSpin_none {spinFn : Player → Option (Player × Spin)} {pid : Nat} {player : Player}
    {spins0 : List SpinRow} (hfn : spinFn player = none) :
    atomicSpin spinFn ⟨some (pid, player), spins0⟩ =
      (.insufficientBalance, ⟨some (pid, player), spins0⟩) := by
  unfold atomicSpin
  simp only [hfn]

lemma atomicSpin_commit {spinFn : Player → Option (Player × Spin)} {pid : Nat} {player : Player}
    {spins0 : List SpinRow} {np : Player} {sp : Spin} (hfn : spinFn player = some (np, sp))
    (hguard : sp.totalBet ≤ player.balance_wwxrp) :
    atomicSpin spinFn ⟨some (pid, player), spins0⟩ =
      (.ok ⟨np.balance_wwxrp, np.activity_score_bps⟩ sp,
        ⟨some (pid, ⟨np.balance_wwxrp, np.activity_score_bps⟩),
          spins0 ++ [⟨pid, sp.totalBet, sp.totalPayout, sp.netResult, sp.result.matchCount,
            sp.result.playerTicket, sp.result.resultTicket⟩]⟩) := by
  unfold atomicSpin
  simp only [hfn]
  rw [if_pos hguard]

lemma atomicSpin_guard_fail {spinFn : Player → Option (Player × Spin)} {pid : Nat}
    {player : Player} {spins0 : List SpinRow} {np : Player} {sp : Spin}
    (hfn : spinFn player = some (np, sp)) (hguard : ¬ sp.totalBet ≤ player.balance_wwxrp) :
    atomicSpin spinFn ⟨some (pid, player), spins0⟩ =
      (.balanceChanged, ⟨some (pid, player), spins0⟩) := by
  unfold atomicSpin
  simp only [hfn]
  rw [if_neg hguard]

lemma atomicSpin_notOk {spinFn : Player → Option (Player × Spin)} {st : DbState}
    {out : SpinOutcome} {st2 : DbState} (h : atomicSpin spinFn st = (out, st2))
    (hno : out.isOk = false) : st2 = st := by
  rcases st with ⟨pl, spins0⟩
  cases pl with
  | none =>
    unfold atomicSpin at h
    simp only [Prod.mk.injEq] at h
    exact h.2.symm
  | some idp =>
    obtain ⟨pid, player⟩ := idp
    cases hfn : spinFn player with
    | none =>
      rw [atomicSpin_none hfn] at h
      simp only [Prod.mk.injEq] at h
      exact h.2.symm
    | some nps =>
      obtain ⟨np, sp⟩ := nps
      by_cases hg : sp.totalBet ≤ player.balance_wwxrp
      · rw [atomicSpin_commit hfn hg] at h
        simp only [Prod.mk.injEq] at h
        rw [← h.1] at hno
        exact absurd hno (by simp [SpinOutcome.isOk])
      · rw [atomicSpin_guard_fail hfn hg] at h
        simp only [Prod.mk.injEq] at h
        exact h.2.symm

lemma atomicSpin_spin_ok {player : Player} {ticket : Ticket} {amount : ℚ} {currency : Nat}
    {resultTicket : Ticket} {pid : Nat} {spins0 : List SpinRow} {p2 : Player} {sp : Spin}
    {st2 : DbState}
    (h : atomicSpin (fun pl => spinFullTicket pl ticket amount currency resultTicket)
        ⟨some (pid, player), spins0⟩ = (.ok p2 sp, st2)) :
    p2.balance_wwxrp = player.balance_wwxrp - amount + sp.totalPayout ∧
    p2.activity_score_bps = min (player.activity_score_bps + 100) 35500 ∧
    st2.spins = spins0 ++ [⟨pid, amount, sp.totalPayout, sp.totalPayout - amount,
      sp.result.matchCount, ticket, resultTicket⟩] ∧
    st2.player = some (pid, p2) := by
  cases hfn : spinFullTicket player ticket amount currency resultTicket with
  | none =>
    rw [atomicSpin_none hfn] at h
    exact absurd h (by simp)
  | some nps =>
    obtain ⟨np, sp0⟩ := nps
    obtain ⟨hnl, hbal, hact, hbet, hnet, hmat, hspm, hpt, hrt, hjack, hpay⟩ :=
      spinFullTicket_eq_some hfn
    have hg : sp0.totalBet ≤ player.balance_wwxrp := by
      rw [hbet]; exact le_of_not_lt hnl
    rw [atomicSpin_commit hfn hg] at h
    simp only [Prod.mk.injEq, SpinOutcome.ok.injEq] at h
    obtain ⟨⟨hp2, hsp⟩, hst⟩ := h
    subst hp2
    subst hsp
    subst hst
    refine ⟨by simpa using hbal, by simpa using hact, ?_, rfl⟩
    simp only [hbet, hnet, hpt, hrt, hbal]

/-- Claim C1: a settlement that commits returns a player whose balance is
the old balance minus the stake plus the payout and whose activity score
is min(old + 100, 35500), and the transaction appends exactly one ledger
row recording the stake, payout, net result, match count and both ticket
snapshots; a settlement that does not commit leaves the store, its
ledger included, unchanged. -/
theorem wager_settlement_effects (player : Player) (ticket : Ticket) (amount : ℚ)
    (currency : Nat) (resultTicket : Ticket) (pid : Nat) (spins0 : List SpinRow) :
    (∀ p2 sp st2,
      atomicSpin (fun pl => spinFullTicket pl ticket amount currency resultTicket)
          ⟨some (pid, player), spins0⟩ = (.ok p2 sp, st2) →
      p2.balance_wwxrp = player.balance_wwxrp - amount + sp.totalPayout ∧
      p2.activity_score_bps = min (player.activity_score_bps + 100) 35500 ∧
      st2.spins = spins0 ++ [⟨pid, amount, sp.totalPayout, sp.totalPayout - amount,
        sp.result.matchCount, ticket, resultTicket⟩] ∧
      st2.player = some (pid, p2)) ∧
    (∀ out st2,
      atomicSpin (fun pl => spinFullTicket pl ticket amount currency resultTicket)
          ⟨some (pid, player), spins0⟩ = (out, st2) →
      out.isOk = false → st2 = ⟨some (pid, player), spins0⟩) :=
  ⟨fun _ _ _ h => atomicSpin_spin_ok h, fun _ _ h hno => atomicSpin_notOk h hno⟩

/-- Witness for wager_settlement_effects: a stake of 100 against a
balance of 100 commits, yielding balance 0, activity 100, one row. -/
theorem wager_settlement_effects_witness :
    (Player.mk 0 100).balance_wwxrp = (Player.mk 100 0).balance_wwxrp - 100 + spinW.totalPayout ∧
    (Player.mk 0 100).activity_score_bps =
      min ((Player.mk 100 0).activity_score_bps + 100) 35500 ∧
    stW.spins = [] ++ [⟨1, 100, spinW.totalPayout, spinW.totalPayout - 100,
      spinW.result.matchCount, ticketAllZero, ticketAllOne⟩] ∧
    stW.player = some (1, Player.mk 0 100) :=
  (wager_settlement_effects (Player.mk 100 0) ticketAllZero 100 3 ticketAllOne 1 []).1
    (Player.mk 0 100) spinW stW
    (by norm_num [atomicSpin, spinFullTicket, calculateRoi, calculateWwxrpHighRoi, countMatches,
      matchPoints, specialsMatch, fullTicketMultiplier, bonusBucket, bonusRoiForBucket,
      calculateEvNormalization, calculateEvNormalizationW, totalWeightProduct, evWeightFactor,
      bucketWeight_zero, payouts_getD_zero, JACKPOT_MULTIPLIER_BPS,
      SPECIAL_MATCH_MIN_MULTIPLIER_BPS, CURRENCY_WWXRP, ETH_ROI_BONUS_BPS,
      FULL_TICKET_NON_WWXRP_SCALE, ticketAllZero, ticketAllOne, spinW, rowW, stW, min_def])

/-- Claim C2: a settlement attempt with balance below the stake is
rejected as insufficient funds with no side effects: spinFullTicket
returns none, atomicSpin surfaces the insufficient-balance failure, and
the store, balance, activity score and ledger included, is unchanged. -/
theorem insufficient_funds_rejected (player : Player) (ticket : Ticket) (amount : ℚ)
    (currency : Nat) (resultTicket : Ticket) (pid : Nat) (spins0 : List SpinRow)
    (h : player.balance_wwxrp < amount) :
    spinFullTicket player ticket amount currency resultTicket = none ∧
    atomicSpin (fun pl => spinFullTicket pl ticket amount currency resultTicket)
      ⟨some (pid, player), spins0⟩ = (.insufficientBalance, ⟨some (pid, player), spins0⟩) := by
  have hnone : spinFullTicket player ticket amount currency resultTicket = none := by
    unfold spinFullTicket
    rw [if_pos h]
  exact ⟨hnone, atomicSpin_none hnone⟩

/-- Witness for insufficient_funds_rejected at balance 50 and stake 100. -/
theorem insufficient_funds_rejected_witness :
    spinFullTicket (Player.mk 50 0) ticketAllZero 100 3 ticketAllOne = none ∧
    atomicSpin (fun pl => spinFullTicket pl ticketAllZero 100 3 ticketAllOne)
      ⟨some (1, Player.mk 50 0), []⟩ =
      (.insufficientBalance, ⟨some (1, Player.mk 50 0), []⟩) :=
  insufficient_funds_rejected (Player.mk 50 0) ticketAllZero 100 3 ticketAllOne 1 []
    (by norm_num)

/-- Claim C10: with a sufficient balance but a player special marker
outside 1..3 (0 included), spinFullTicket returns none and atomicSpin
maps that to the same insufficient-balance failure with no state change,
so the engine never accepts a ticket without an active special marker
and the rejection is indistinguishable from insufficient balance at the
return value. -/
theorem invalid_special_rejected (player : Player) (ticket : Ticket) (amount : ℚ)
    (currency : Nat) (resultTicket : Ticket) (pid : Nat) (spins0 : List SpinRow)
    (hbal : ¬ player.balance_wwxrp < amount)
    (hspec : ticket.special < 1 ∨ 3 < ticket.special) :
    spinFullTicket player ticket amount currency resultTicket = none ∧
    atomicSpin (fun pl => spinFullTicket pl ticket amount currency resultTicket)
      ⟨some (pid, player), spins0⟩ = (.insufficientBalance, ⟨some (pid, player), spins0⟩) := by
  have hnone : spinFullTicket player ticket amount currency resultTicket = none := by
    unfold spinFullTicket
    rw [if_neg hbal, if_pos hspec]
  exact ⟨hnone, atomicSpin_none hnone⟩

/-- Witness for invalid_special_rejected: balance 100, stake 50,
special 0. -/
theorem invalid_special_rejected_witness :
    spinFullTicket (Player.mk 100 0) ticketAllOne 50 3 ticketAllZero = none ∧
    atomicSpin (fun pl => spinFullTicket pl ticketAllOne 50 3 ticketAllZero)
      ⟨some (1, Player.mk 100 0), []⟩ =
      (.insufficientBalance, ⟨some (1, Player.mk 100 0), []⟩) :=
  invalid_special_rejected (Player.mk 100 0) ticketAllOne 50 3 ticketAllZero 1 []
    (by norm_num) (Or.inl (by norm_num [ticketAllOne]))

/-- Claim C9: two settlement attempts for one player run as serialized
atomic transactions; when the first commits, the second reads the
player state already carrying the first wager's full stake-and-payout
effect, a committed second attempt yields the balance with both stakes
and both payouts applied and both ledger rows appended, and a
non-committed attempt leaves its input store unchanged, so the
persisted balance never reflects one wager's stake with both payouts. -/
theorem settlements_serialize (player : Player) (pid : Nat) (spins0 : List SpinRow)
    (t1 t2 : Ticket) (a1 a2 : ℚ) (c1 c2 : Nat) (rT1 rT2 : Ticket)
    (o1 o2 : SpinOutcome) (st1 st2 : DbState)
    (h1 : atomicSpin (fun pl => spinFullTicket pl t1 a1 c1 rT1)
      ⟨some (pid, player), spins0⟩ = (o1, st1))
    (h2 : atomicSpin (fun pl => spinFullTicket pl t2 a2 c2 rT2) st1 = (o2, st2)) :
    (∀ p1 s1, o1 = .ok p1 s1 →
      st1.player = some (pid, p1) ∧
      p1.balance_wwxrp = player.balance_wwxrp - a1 + s1.totalPayout) ∧
    (∀ p1 s1 p2 s2, o1 = .ok p1 s1 → o2 = .ok p2 s2 →
      p2.balance_wwxrp = player.balance_wwxrp - a1 + s1.totalPayout - a2 + s2.totalPayout ∧
      st2.spins = spins0 ++
        [⟨pid, a1, s1.totalPayout, s1.totalPayout - a1, s1.result.matchCount, t1, rT1⟩,
         ⟨pid, a2, s2.totalPayout, s2.totalPayout - a2, s2.result.matchCount, t2, rT2⟩]) ∧
    (o1.isOk = false → st1 = ⟨some (pid, player), spins0⟩) ∧
    (o2.isOk = false → st2 = st1) := by
  refine ⟨?_, ?_, ?_, ?_⟩
  · intro p1 s1 ho
    rw [ho] at h1
    obtain ⟨hb1, -, -, hpl1⟩ := atomicSpin_spin_ok h1
    exact ⟨hpl1, hb1⟩
  · intro p1 s1 p2 s2 ho1 ho2
    rw [ho1] at h1
    rw [ho2] at h2
    obtain ⟨hb1, -, hsp1, hpl1⟩ := atomicSpin_spin_ok h1
    rcases st1 with ⟨pl1, sps1⟩
    simp only at hpl1 hsp1
    subst hpl1
    subst hsp1
    obtain ⟨hb2, -, hsp2, -⟩ := atomicSpin_spin_ok h2
    refine ⟨by rw [hb2, hb1], ?_⟩
    rw [hsp2]
    simp
  · intro hno
    exact atomicSpin_notOk h1 hno
  · intro hno
    exact atomicSpin_notOk h2 hno

/-- Witness for settlements_serialize: two committed stakes of 100 from
balance 200 leave balance 0 and two ledger rows. -/
theorem settlements_serialize_witness :
    (Player.mk 0 200).balance_wwxrp =
      (Player.mk 200 0).balance_wwxrp - 100 + spinW.totalPayout - 100 + spinW.totalPayout ∧
    st2W.spins = [] ++
      [⟨1, 100, spinW.totalPayout, spinW.totalPayout - 100, spinW.result.matchCount,
        ticketAllZero, ticketAllOne⟩,
       ⟨1, 100, spinW.totalPayout, spinW.totalPayout - 100, spinW.result.matchCount,
        ticketAllZero, ticketAllOne⟩] :=
  (settlements_serialize (Player.mk 200 0) 1 [] ticketAllZero ticketAllZero 100 100 3 3
      ticketAllOne ticketAllOne (.ok (Player.mk 100 100) spinW) (.ok (Player.mk 0 200) spinW)
      st1W st2W
      (by norm_num [atomicSpin, spinFullTicket, calculateRoi, calculateWwxrpHighRoi, countMatches,
        matchPoints, specialsMatch, fullTicketMultiplier, bonusBucket, bonusRoiForBucket,
        calculateEvNormalization, calculateEvNormalizationW, totalWeightProduct, evWeightFactor,
        bucketWeight_zero, payouts_getD_zero, JACKPOT_MULTIPLIER_BPS,
        SPECIAL_MATCH_MIN_MULTIPLIER_BPS, CURRENCY_WWXRP, ETH_ROI_BONUS_BPS,
        FULL_TICKET_NON_WWXRP_SCALE, ticketAllZero, ticketAllOne, spinW, rowW, st1W, min_def])
      (by norm_num [atomicSpin, spinFullTicket, calculateRoi, calculateWwxrpHighRoi, countMatches,
        matchPoints, specialsMatch, fullTicketMultiplier, bonusBucket, bonusRoiForBucket,
        calculateEvNormalization, calculateEvNormalizationW, totalWeightProduct, evWeightFactor,
        bucketWeight_zero, payouts_getD_zero, JACKPOT_MULTIPLIER_BPS,
        SPECIAL_MATCH_MIN_MULTIPLIER_BPS, CURRENCY_WWXRP, ETH_ROI_BONUS_BPS,
        FULL_TICKET_NON_WWXRP_SCALE, ticketAllZero, ticketAllOne, spinW, rowW, st1W, st2W,
        min_def])).2.1
    (Player.mk 100 100) spinW (Player.mk 0 200) spinW rfl rfl

/-- Claim C5: the match count of two tickets is the number of quadrants
whose colors agree plus the number whose symbols agree, always at most
8; specialsMatch holds exactly when the player special is nonzero and
equals the outcome special; and in a settlement result isJackpot holds
exactly when the match count is 8 and the special also matches. -/
theorem match_scorer_spec :
    (∀ p r : Ticket,
      countMatches p r =
        (Finset.univ.filter fun q : Fin 4 => (p.traits q).color = (r.traits q).color).card +
        (Finset.univ.filter fun q : Fin 4 => (p.traits q).symbol = (r.traits q).symbol).card ∧
      countMatches p r ≤ 8) ∧
    (∀ ps rs : Nat, specialsMatch ps rs = true ↔ ps ≠ 0 ∧ ps = rs) ∧
    (∀ (player : Player) (ticket : Ticket) (amount : ℚ) (currency : Nat)
        (resultTicket : Ticket) (p2 : Player) (sp : Spin),
      spinFullTicket player ticket amount currency resultTicket = some (p2, sp) →
      (sp.result.isJackpot = true ↔
        sp.result.matchCount = 8 ∧ sp.result.specialMatch = true)) := by
  refine ⟨fun p r => ⟨countMatches_eq_card p r, countMatches_le_eight p r⟩,
    specialsMatch_iff, ?_⟩
  intro player ticket amount currency resultTicket p2 sp h
  obtain ⟨-, -, -, -, -, hmat, hspm, -, -, hjack, -⟩ := spinFullTicket_eq_some h
  rw [hjack, hmat, hspm]
  exact fullTicketMultiplier_snd _ _

/-- Witness for match_scorer_spec on a concrete committed settlement. -/
theorem match_scorer_spec_witness :
    spinW.result.isJackpot = true ↔
      spinW.result.matchCount = 8 ∧ spinW.result.specialMatch = true :=
  match_scorer_spec.2.2 (Player.mk 100 0) ticketAllZero 100 3 ticketAllOne (Player.mk 0 100)
    spinW
    (by norm_num [spinFullTicket, calculateRoi, calculateWwxrpHighRoi, countMatches, matchPoints,
      specialsMatch, fullTicketMultiplier, bonusBucket, bonusRoiForBucket,
      calculateEvNormalization, calculateEvNormalizationW, totalWeightProduct, evWeightFactor,
      bucketWeight_zero, payouts_getD_zero, JACKPOT_MULTIPLIER_BPS,
      SPECIAL_MATCH_MIN_MULTIPLIER_BPS, CURRENCY_WWXRP, ETH_ROI_BONUS_BPS,
      FULL_TICKET_NON_WWXRP_SCALE, ticketAllZero, ticketAllOne, spinW, min_def])

/-- Claim C4, counterexample: with 8 matches and no special match the
multiplier is the table's 355600, which is not the jackpot multiplier,
so the plain table does not hold the jackpot value at m = 8. -/
theorem payout_multiplier_top_counterexample :
    (fullTicketMultiplier 8 false).1 = 355600 ∧
    (fullTicketMultiplier 8 false).1 ≠ JACKPOT_MULTIPLIER_BPS := by decide

/-- Claim C4 as amended: 8 matches with special match gives the jackpot
multiplier with the isJackpot flag; special match at any other count
gives the greater of the tier-above table entry and the fixed minimum
400; no special match gives the plain table entry, a table with 0 at 0
and 1, increasing entries for 2..7, and a top value 355600 at 8 that is
strictly below the jackpot multiplier. -/
theorem payout_multiplier_spec (m : Nat) (hm : m ≤ 8) (sp : Bool) :
    (m = 8 ∧ sp = true → fullTicketMultiplier m sp = (JACKPOT_MULTIPLIER_BPS, true)) ∧
    (sp = true → ¬ m = 8 → fullTicketMultiplier m sp =
      (max (FULL_TICKET_PAYOUTS_BPS.getD (min (m + 1) 8) 0) SPECIAL_MATCH_MIN_MULTIPLIER_BPS,
        false)) ∧
    (sp = false → fullTicketMultiplier m sp = (FULL_TICKET_PAYOUTS_BPS.getD m 0, false)) ∧
    ((fullTicketMultiplier m sp).2 = true ↔ m = 8 ∧ sp = true) ∧
    FULL_TICKET_PAYOUTS_BPS.getD 0 0 = 0 ∧ FULL_TICKET_PAYOUTS_BPS.getD 1 0 = 0 ∧
    (∀ i, i < 7 → 2 ≤ i →
      FULL_TICKET_PAYOUTS_BPS.getD i 0 < FULL_TICKET_PAYOUTS_BPS.getD (i + 1) 0) ∧
    FULL_TICKET_PAYOUTS_BPS.getD 8 0 = 355600 ∧
    FULL_TICKET_PAYOUTS_BPS.getD 8 0 < JACKPOT_MULTIPLIER_BPS := by
  interval_cases m <;> cases sp <;> decide

/-- Witness for payout_multiplier_spec at 8 matches with special. -/
theorem payout_multiplier_spec_witness :
    (8 = 8 ∧ true = true → fullTicketMultiplier 8 true = (JACKPOT_MULTIPLIER_BPS, true)) ∧
    (true = true → ¬ (8 : Nat) = 8 → fullTicketMultiplier 8 true =
      (max (FULL_TICKET_PAYOUTS_BPS.getD (min (8 + 1) 8) 0) SPECIAL_MATCH_MIN_MULTIPLIER_BPS,
        false)) ∧
    (true = false → fullTicketMultiplier 8 true = (FULL_TICKET_PAYOUTS_BPS.getD 8 0, false)) ∧
    ((fullTicketMultiplier 8 true).2 = true ↔ (8 : Nat) = 8 ∧ true = true) ∧
    FULL_TICKET_PAYOUTS_BPS.getD 0 0 = 0 ∧ FULL_TICKET_PAYOUTS_BPS.getD 1 0 = 0 ∧
    (∀ i, i < 7 → 2 ≤ i →
      FULL_TICKET_PAYOUTS_BPS.getD i 0 < FULL_TICKET_PAYOUTS_BPS.getD (i + 1) 0) ∧
    FULL_TICKET_PAYOUTS_BPS.getD 8 0 = 355600 ∧
    FULL_TICKET_PAYOUTS_BPS.getD 8 0 < JACKPOT_MULTIPLIER_BPS :=
  payout_multiplier_spec 8 (by norm_num) true

/-! EV normalization (claims C6 and C8). -/

lemma weight_bounds (w : Nat → Nat) (hw : ∀ i, i < 8 → 0 < w i)
    (hsum : w 0 + w 1 + w 2 + w 3 + w 4 + w 5 + w 6 + w 7 = 75) :
    ∀ i, i < 8 → 0 < w i ∧ w i < 75 := by
  have g0 := hw 0 (by norm_num)
  have g1 := hw 1 (by norm_num)
  have g2 := hw 2 (by norm_num)
  have g3 := hw 3 (by norm_num)
  have g4 := hw 4 (by norm_num)
  have g5 := hw 5 (by norm_num)
  have g6 := hw 6 (by norm_num)
  have g7 := hw 7 (by norm_num)
  intro i hi
  interval_cases i <;> exact ⟨by omega, by omega⟩

/-- Claim C6: for every weight table of eight positive weights with the
constant total 75 and every structurally valid player ticket, both EV
normalization formulations, the ticket-only one of src/game.js and the
per-outcome one of the earlier revision at every drawn outcome, give a
strictly positive (hence finite and well-defined) factor. -/
theorem ev_normalization_positive (w : Nat → Nat) (p r : Ticket)
    (hw : ∀ i, i < 8 → 0 < w i)
    (hsum : w 0 + w 1 + w 2 + w 3 + w 4 + w 5 + w 6 + w 7 = 75)
    (hp : ∀ q : Fin 4, (p.traits q).color < 8 ∧ (p.traits q).symbol < 8) :
    0 < calculateEvNormalizationW w p ∧ 0 < calculateEvNormalizationAW w p r := by
  have hb := weight_bounds w hw hsum
  have hfac : ∀ q : Fin 4, 0 < evWeightFactor w p q := by
    intro q
    have hc0 : (0 : ℚ) < w (p.traits q).color := by exact_mod_cast (hb _ (hp q).1).1
    have hs0 : (0 : ℚ) < w (p.traits q).symbol := by exact_mod_cast (hb _ (hp q).2).1
    unfold evWeightFactor
    exact mul_pos (div_pos hc0 (by norm_num)) (div_pos hs0 (by norm_num))
  have hnum : ∀ q : Fin 4, 0 < (evQuadrantA w p r q).1 := by
    intro q
    unfold evQuadrantA
    split_ifs <;> norm_num
  have hden : ∀ q : Fin 4, 0 < (evQuadrantA w p r q).2 := by
    intro q
    have hc0 : (0 : ℚ) < w (p.traits q).color := by exact_mod_cast (hb _ (hp q).1).1
    have hc1 : ((w (p.traits q).color : ℚ)) < 75 := by exact_mod_cast (hb _ (hp q).1).2
    have hs0 : (0 : ℚ) < w (p.traits q).symbol := by exact_mod_cast (hb _ (hp q).2).1
    have hs1 : ((w (p.traits q).symbol : ℚ)) < 75 := by exact_mod_cast (hb _ (hp q).2).2
    unfold evQuadrantA
    split_ifs
    · exact mul_pos hc0 hs0
    · have t1 := mul_pos hc0 (sub_pos.mpr hs1)
      have t2 := mul_pos hs0 (sub_pos.mpr hc1)
      dsimp only
      nlinarith
    · exact mul_pos (sub_pos.mpr hc1) (sub_pos.mpr hs1)
  constructor
  · unfold calculateEvNormalizationW totalWeightProduct
    exact div_pos (by positivity)
      (mul_pos (mul_pos (mul_pos (hfac 0) (hfac 1)) (hfac 2)) (hfac 3))
  · unfold calculateEvNormalizationAW
    exact div_pos
      (mul_pos (mul_pos (mul_pos (hnum 0) (hnum 1)) (hnum 2)) (hnum 3))
      (mul_pos (mul_pos (mul_pos (hden 0) (hden 1)) (hden 2)) (hden 3))

/-- Witness for ev_normalization_positive at the engine's own weight
table and a concrete valid ticket and outcome. -/
theorem ev_normalization_positive_witness :
    0 < calculateEvNormalizationW bucketWeight ticketAllSeven ∧
    0 < calculateEvNormalizationAW bucketWeight ticketAllSeven ticketAllOne :=
  ev_normalization_positive bucketWeight ticketAllSeven ticketAllOne
    (by decide) (by decide) (by decide)

/-- Claim C8: the per-outcome formulation (policy A, the 100/1300/4225
constants over both tickets) and the ticket-only formulation (policy B)
are not numerically equivalent: at the all-category-7 player ticket
against an all-category-1 outcome, policy A gives (4225/4489)^4 while
policy B gives 390625/65536. -/
theorem ev_policies_differ :
    ∃ (p r : Ticket), calculateEvNormalizationA p r ≠ calculateEvNormalization p := by
  refine ⟨ticketAllSeven, ticketAllOne, ?_⟩
  have hA : calculateEvNormalizationA ticketAllSeven ticketAllOne = (4225 / 4489 : ℚ) ^ 4 := by
    norm_num [calculateEvNormalizationA, calculateEvNormalizationAW, evQuadrantA,
      bucketWeight_seven, ticketAllSeven, ticketAllOne]
  have hB : calculateEvNormalization ticketAllSeven = (390625 / 65536 : ℚ) := by
    norm_num [calculateEvNormalization, calculateEvNormalizationW, totalWeightProduct,
      evWeightFactor, bucketWeight_seven, ticketAllSeven]
  rw [hA, hB]
  norm_num [pow_succ]

end Degenerus
